import Mathlib

/-!
Shallow embedding of the placement / waitlist logic of the enrollment
service (files `enrollment/enrollment_routes.py`, `enrollment/enrollment_redis.py`).

Three storage backends appear in the source and are modelled separately,
exactly as the code uses them:

* the DynamoDB-backed class/user tables used by `enroll_student_in_class`,
  `drop_student_from_class` and `get_available_classes` (a class item holds
  `current_enroll`, `max_enroll`, the `enrolled` list and the `dropped` list;
  a user item holds an optional `waitlist_count` attribute);
* the Redis store used by the `Waitlist` helper class (per-class sorted sets
  `class:{id}:waitlist` and per-student hashes `student:{id}:waitlists`);
* the sqlite tables used by `remove_from_waitlist` and `reorder_placement`
  (an `enrollment` table of `(student_id, class_id, placement)` rows, a
  `class` table, and a `waitlist` table of per-student counters).

HTTP routing, authentication-header parsing and connection plumbing are not
modelled; the existence checks that the routes perform on the student and the
class are modelled as boolean fields of the state.
-/

namespace Enrollment

/-- Module-level constant `MAX_WAITLIST = 3` from `enrollment_routes.py`. -/
def MAX_WAITLIST : Nat := 3

/-- A DynamoDB item of the `enrollment_class` table, with the fields the
routes read and write. -/
structure ClassItem where
  id : Nat
  current_enroll : Nat
  max_enroll : Nat
  enrolled : List Nat
  dropped : List Nat
deriving DecidableEq

/-- Outcome of `enroll_student_in_class`, one constructor per distinct
response of the route. -/
inductive EnrollResult where
  /-- HTTP 404 "Student or Class not found". -/
  | notFound
  /-- HTTP 400 "Student is already enrolled in this class or currently on waitlist". -/
  | alreadyEnrolled
  /-- "Student successfully enrolled in class". -/
  | enrolledOk
  /-- "Student added to the waitlist". -/
  | addedToWaitlist
  /-- "Unable to add student to waitlist due to already having the maximum number of waitlists". -/
  | maxWaitlistRejected
  /-- "Unable to add student to waitlist due to administrative freeze". -/
  | freezeRejected
deriving DecidableEq

/-- The state read and written by one call of `enroll_student_in_class`:
the class item, the student's user item attribute `waitlist_count`
(absent = `none`, matching the `if_not_exists(waitlist_count, 0)` update),
the value `Waitlist.get_waitlist_count(student_id)` read from Redis, and the
module-level `FREEZE` flag.  `studentExists` / `classExists` stand for the
two `get_item` lookups succeeding. -/
structure EnrollState where
  studentExists : Bool
  classExists : Bool
  classItem : ClassItem
  userWaitlistCount : Option Nat
  redisWaitlistCount : Nat
  freeze : Bool
deriving DecidableEq

/-- `enroll_student_in_class` (enrollment_routes.py lines 188-303), after the
authentication block.  The route increments `current_enroll`, appends the
student to `enrolled` and cleans the `dropped` list before it decides between
the enrolled / waitlist / rejection outcomes, and it performs no rollback in
the rejection branches. -/
def enroll_student_in_class (student_id : Nat) (s : EnrollState) :
    EnrollResult × EnrollState :=
  if s.studentExists = false ∨ s.classExists = false then (.notFound, s)
  else if student_id ∈ s.classItem.enrolled then (.alreadyEnrolled, s)
  else
    let new_enrollment : Nat := s.classItem.current_enroll + 1
    let afterInc : ClassItem := { s.classItem with current_enroll := new_enrollment }
    let afterAppend : ClassItem :=
      { afterInc with enrolled := afterInc.enrolled ++ [student_id] }
    let afterDropFix : ClassItem :=
      if student_id ∈ afterAppend.dropped then
        { afterAppend with dropped := afterAppend.dropped.erase student_id }
      else afterAppend
    let s1 : EnrollState := { s with classItem := afterDropFix }
    if s.classItem.max_enroll ≤ new_enrollment then
      if s.freeze = false then
        if s.redisWaitlistCount < MAX_WAITLIST ∧
            new_enrollment < s.classItem.max_enroll + 15 then
          (.addedToWaitlist,
            { s1 with userWaitlistCount := some (s1.userWaitlistCount.getD 0 + 1) })
        else (.maxWaitlistRejected, s1)
      else (.freezeRejected, s1)
    else (.enrolledOk, s1)

/-- The class filter of `get_available_classes` (enrollment_routes.py lines
132-148): students at `MAX_WAITLIST` see classes with
`current_enroll <= max_enroll`; everyone else sees classes with
`current_enroll < 45` (the PartiQL query hard-codes 45). -/
def get_available_classes (waitlist_count : Nat) (classes : List ClassItem) :
    List ClassItem :=
  if MAX_WAITLIST ≤ waitlist_count then
    classes.filter (fun c => decide (c.current_enroll ≤ c.max_enroll))
  else
    classes.filter (fun c => decide (c.current_enroll < 45))

/-- Outcome of `drop_student_from_class`. -/
inductive DropResult where
  /-- HTTP 404 "Student or Class not found". -/
  | notFound
  /-- HTTP 400 "Student is not enrolled in the class". -/
  | notEnrolled
  /-- "Student successfully dropped class". -/
  | droppedOk
deriving DecidableEq

/-- State read and written by one call of `drop_student_from_class`:
the class item plus the value of `Waitlist.is_student_on_waitlist(student_id,
class_id)` read from Redis. -/
structure DropState where
  studentExists : Bool
  classExists : Bool
  classItem : ClassItem
  onRedisWaitlist : Bool
deriving DecidableEq

/-- `drop_student_from_class` (enrollment_routes.py lines 308-393), after the
authentication block.  The route rejects with HTTP 400 when the student is
not in the `enrolled` list or is on the class's Redis waitlist; otherwise it
removes the student from `enrolled` and appends them to `dropped`.  It never
touches `current_enroll` and never touches any waitlist counter. -/
def drop_student_from_class (student_id : Nat) (s : DropState) :
    DropResult × DropState :=
  if s.studentExists = false ∨ s.classExists = false then (.notFound, s)
  else if student_id ∉ s.classItem.enrolled ∨ s.onRedisWaitlist = true then
    (.notEnrolled, s)
  else
    let afterRemove := { s.classItem with enrolled := s.classItem.enrolled.erase student_id }
    let afterLog := { afterRemove with dropped := afterRemove.dropped ++ [student_id] }
    (.droppedOk, { s with classItem := afterLog })

/-! Redis model for the `Waitlist` helper class (`enrollment_redis.py`).
A sorted set (`class:{id}:waitlist`) is a list of `(member, score)` pairs;
a hash (`student:{id}:waitlists`) is a list of `(field, value)` pairs. -/

/-- A Redis sorted set: members with integer scores (the placements used by
the code are integers throughout). -/
abbrev ZSet := List (Nat × Int)

/-- A Redis hash: fields with integer values. -/
abbrev RHash := List (Nat × Int)

/-- Redis `ZSCORE key member`. -/
def zscore (z : ZSet) (member : Nat) : Option Int :=
  (z.find? (fun ms => ms.1 == member)).map (fun ms => ms.2)

/-- Redis `ZREM key member`. -/
def zrem (z : ZSet) (member : Nat) : ZSet :=
  z.filter (fun ms => ms.1 != member)

/-- Redis `ZADD key score member`: updates the member's score, or inserts. -/
def zadd (z : ZSet) (member : Nat) (score : Int) : ZSet :=
  if z.any (fun ms => ms.1 == member) then
    z.map (fun ms => if ms.1 == member then (ms.1, score) else ms)
  else z ++ [(member, score)]

/-- Redis `ZRANGEBYSCORE key lo +inf WITHSCORES`: members with score `≥ lo`,
in score order. -/
def zrangebyscore_ge (z : ZSet) (lo : Int) : List (Nat × Int) :=
  List.insertionSort (fun a b => a.2 ≤ b.2) (z.filter (fun ms => decide (lo ≤ ms.2)))

/-- Redis `ZREVRANGE key 0 0 WITHSCORES` reduced to the score it returns:
the highest score in the set, if any. -/
def ztopscore (z : ZSet) : Option Int :=
  (z.map (fun ms => ms.2)).max?

/-- Redis `HSET key field value`. -/
def hset (h : RHash) (field : Nat) (value : Int) : RHash :=
  if h.any (fun fv => fv.1 == field) then
    h.map (fun fv => if fv.1 == field then (fv.1, value) else fv)
  else h ++ [(field, value)]

/-- Redis `HDEL key field`. -/
def hdel (h : RHash) (field : Nat) : RHash :=
  h.filter (fun fv => fv.1 != field)

/-- The Redis database as used by the `Waitlist` class: the per-class
sorted sets `class:{id}:waitlist` and the per-student hashes
`student:{id}:waitlists`, each indexed by the id in the key. -/
structure RedisDB where
  classWaitlists : List (Nat × ZSet)
  studentWaitlists : List (Nat × RHash)
deriving DecidableEq

/-- Reading the value stored under a key (an absent key is the empty
set/hash, as in Redis). -/
def getKey (store : List (Nat × List (Nat × Int))) (k : Nat) :
    List (Nat × Int) :=
  ((store.find? (fun kv => kv.1 == k)).map (fun kv => kv.2)).getD []

/-- Writing the value stored under a key. -/
def setKey (store : List (Nat × List (Nat × Int))) (k : Nat)
    (v : List (Nat × Int)) : List (Nat × List (Nat × Int)) :=
  if store.any (fun kv => kv.1 == k) then
    store.map (fun kv => if kv.1 == k then (kv.1, v) else kv)
  else store ++ [(k, v)]

namespace Waitlist

/-- `Waitlist.add_waitlists` (enrollment_redis.py lines 14-35): the new
placement is one more than the current highest placement in the class's
sorted set (1 when empty); the student is added to the class's sorted set and
the class is added to the student's hash, both with the new placement. -/
def add_waitlists (class_id student_id : Nat) (db : RedisDB) : RedisDB :=
  let z := getKey db.classWaitlists class_id
  let new_placement : Int :=
    match ztopscore z with
    | some top => top + 1
    | none => 1
  let newZ : ZSet := zadd z student_id new_placement
  let db1 : RedisDB := { db with classWaitlists := setKey db.classWaitlists class_id newZ }
  let newHash : RHash :=
    hset (getKey db1.studentWaitlists student_id) class_id new_placement
  { db1 with studentWaitlists := setKey db1.studentWaitlists student_id newHash }

/-- `Waitlist.remove_student_from_waitlists` (enrollment_redis.py lines
38-60), verbatim: after removing the student from the class's sorted set and
the class from the student's hash, the renumbering loop `zadd`s each
remaining higher-placed student with placement−1 into the class's sorted set
and `hset`s into the hash keyed by the *removed* student's id, with the
*other* student's id as the field — exactly as the source does. -/
def remove_student_from_waitlists (student_id class_id : Nat) (db : RedisDB) :
    RedisDB :=
  let z := getKey db.classWaitlists class_id
  match zscore z student_id with
  | none => db
  | some student_placement =>
    let prunedZ : ZSet := zrem z student_id
    let db1 : RedisDB := { db with classWaitlists := setKey db.classWaitlists class_id prunedZ }
    let prunedHash : RHash := hdel (getKey db1.studentWaitlists student_id) class_id
    let db2 : RedisDB :=
      { db1 with studentWaitlists := setKey db1.studentWaitlists student_id prunedHash }
    let remaining_students :=
      zrangebyscore_ge (getKey db2.classWaitlists class_id) (student_placement + 1)
    remaining_students.foldl
      (fun acc other =>
        let shiftedZ : ZSet :=
          zadd (getKey acc.classWaitlists class_id) other.1 (other.2 - 1)
        let acc1 : RedisDB :=
          { acc with classWaitlists := setKey acc.classWaitlists class_id shiftedZ }
        let shiftedHash : RHash :=
          hset (getKey acc1.studentWaitlists student_id) other.1 (other.2 - 1)
        { acc1 with studentWaitlists := setKey acc1.studentWaitlists student_id shiftedHash })
      db2

/-- `Waitlist.get_waitlist_count` (enrollment_redis.py lines 105-113):
`HLEN` of the student's waitlists hash. -/
def get_waitlist_count (db : RedisDB) (student_id : Nat) : Nat :=
  (getKey db.studentWaitlists student_id).length

end Waitlist

/-- A Redis state reached by the code's own operations: students 1 and 2
join the waitlist of class 7 (placements 1 and 2). -/
def sampleWaitlistDB : RedisDB :=
  Waitlist.add_waitlists 7 2 (Waitlist.add_waitlists 7 1 ⟨[], []⟩)

/-! Sqlite model for `remove_from_waitlist` and `reorder_placement`
(`enrollment_routes.py`). -/

/-- A row of the sqlite `class` table (the columns these routes touch).
`current_enroll` is a plain SQL integer, so it is modelled as `Int`. -/
structure ClassRow where
  id : Nat
  current_enroll : Int
  max_enroll : Nat
deriving DecidableEq

/-- A row of the sqlite `enrollment` table. -/
structure EnrollRow where
  student_id : Nat
  class_id : Nat
  placement : Nat
deriving DecidableEq

/-- The sqlite state these routes read and write.  `studentExists` stands for
the users/user_role/role join on the student succeeding; `waitlist_counts`
is the `waitlist` table (`student_id`, `waitlist_count`), with a plain SQL
integer count, so `Int`. -/
structure SQLState where
  studentExists : Bool
  classes : List ClassRow
  enrollment : List EnrollRow
  waitlist_counts : List (Nat × Int)
deriving DecidableEq

/-- The body of `reorder_placement`'s while loop (enrollment_routes.py lines
54-59) over an explicit list of counters: for each counter from 1 upward,
when `counter > placement`, the rows of the class at `placement = counter`
get `placement - 1`. -/
def reorder_loop (class_id placement : Nat) (rows : List EnrollRow)
    (counters : List Nat) : List EnrollRow :=
  counters.foldl
    (fun rs counter =>
      if placement < counter then
        rs.map (fun row =>
          if row.class_id = class_id ∧ row.placement = counter then
            { row with placement := row.placement - 1 }
          else row)
      else rs)
    rows

/-- `reorder_placement` (enrollment_routes.py lines 53-61): the while loop
runs `counter = 1 .. total_enrolled` (no iterations when `total_enrolled ≤
0`), then `current_enroll` of the class is decremented. -/
def reorder_placement (total_enrolled : Int) (placement class_id : Nat)
    (s : SQLState) : SQLState :=
  let counters := List.range' 1 total_enrolled.toNat
  let newClasses := s.classes.map (fun cl =>
    if cl.id = class_id then { cl with current_enroll := cl.current_enroll - 1 } else cl)
  { s with
    enrollment := reorder_loop class_id placement s.enrollment counters,
    classes := newClasses }

/-- The effect of one iteration of `reorder_placement`'s loop on a single
row: used in proofs to express `reorder_loop` as a per-row map. -/
def reorder_row_step (class_id placement counter : Nat) (row : EnrollRow) :
    EnrollRow :=
  if placement < counter then
    (if row.class_id = class_id ∧ row.placement = counter then
      { row with placement := row.placement - 1 }
    else row)
  else row

/-- The effect of one iteration of `reorder_placement`'s loop on a single
placement value of a row of the affected class. -/
def placement_step (placement counter q : Nat) : Nat :=
  if placement < counter ∧ q = counter then q - 1 else q

/-- Outcome of `remove_from_waitlist`. -/
inductive RemoveWaitlistResult where
  /-- HTTP 404 "Student or Class not found". -/
  | notFound
  /-- HTTP 404 "Student is not on the waiting list for this class". -/
  | notOnWaitlist
  /-- "Student removed from the waiting list". -/
  | removed
deriving DecidableEq

/-- `remove_from_waitlist` (enrollment_routes.py lines 492-551), after the
authentication block: look up the class; find the student's enrollment row
in that class with `placement > max_enroll` (the waitlist-entry join);
delete the student's enrollment rows for the class; run
`UPDATE waitlist SET waitlist_count = waitlist_count - 1` for the student
(an unconditional decrement, no floor); then renumber with
`reorder_placement` using the class's `current_enroll` and the found
placement. -/
def remove_from_waitlist (student_id class_id : Nat) (s : SQLState) :
    RemoveWaitlistResult × SQLState :=
  if s.studentExists = false then (.notFound, s)
  else
    match s.classes.find? (fun cl => cl.id == class_id) with
    | none => (.notFound, s)
    | some cl =>
      match s.enrollment.find? (fun row =>
          row.student_id == student_id && row.class_id == class_id &&
            decide (cl.max_enroll < row.placement)) with
      | none => (.notOnWaitlist, s)
      | some entry =>
        let remainingRows := s.enrollment.filter (fun row =>
          !(row.student_id == student_id && row.class_id == class_id))
        let s1 : SQLState := { s with enrollment := remainingRows }
        let newCounts := s1.waitlist_counts.map (fun kv =>
          if kv.1 = student_id then (kv.1, kv.2 - 1) else kv)
        let s2 : SQLState := { s1 with waitlist_counts := newCounts }
        (.removed, reorder_placement cl.current_enroll entry.placement class_id s2)

end Enrollment

namespace Enrollment

/-- C1: on a freeze rejection (and likewise on a quota rejection) the enroll
route has already incremented `current_enroll` and appended the student to
`enrolled`, with no rollback, while the quota counter is indeed unchanged.
Here a full class (`max_enroll = 1`, `current_enroll = 1`) with freeze set
rejects student 5 yet leaves them in the occupant list, and a full class with
the student already at `MAX_WAITLIST` waitlists does the same. -/
theorem enroll_freeze_no_rollback :
    (enroll_student_in_class 5
        ⟨true, true, ⟨1, 1, 1, [7], []⟩, some 0, 0, true⟩).1 = .freezeRejected
    ∧ (enroll_student_in_class 5
        ⟨true, true, ⟨1, 1, 1, [7], []⟩, some 0, 0, true⟩).2.classItem.current_enroll = 2
    ∧ 5 ∈ (enroll_student_in_class 5
        ⟨true, true, ⟨1, 1, 1, [7], []⟩, some 0, 0, true⟩).2.classItem.enrolled
    ∧ (enroll_student_in_class 5
        ⟨true, true, ⟨1, 1, 1, [7], []⟩, some 0, 0, true⟩).2.userWaitlistCount = some 0
    ∧ (enroll_student_in_class 5
        ⟨true, true, ⟨1, 1, 1, [7], []⟩, some 3, 3, false⟩).1 = .maxWaitlistRejected
    ∧ (enroll_student_in_class 5
        ⟨true, true, ⟨1, 1, 1, [7], []⟩, some 3, 3, false⟩).2.classItem.current_enroll = 2
    ∧ 5 ∈ (enroll_student_in_class 5
        ⟨true, true, ⟨1, 1, 1, [7], []⟩, some 3, 3, false⟩).2.classItem.enrolled := by
  decide

/-- C2 counterexample: with `max_enroll = 1` and 0 current occupants the new
position 1 satisfies `n + 1 ≤ max_enroll`, yet the route takes the waitlist
branch (its test is `new_enrollment >= max_enroll`) and even increments the
student's stored waitlist count. -/
theorem enroll_boundary_counterexample :
    (enroll_student_in_class 5
        ⟨true, true, ⟨1, 0, 1, [], []⟩, some 0, 0, false⟩).1 = .addedToWaitlist
    ∧ (enroll_student_in_class 5
        ⟨true, true, ⟨1, 0, 1, [], []⟩, some 0, 0, false⟩).1 ≠ .enrolledOk
    ∧ (0 : Nat) + 1 ≤ 1
    ∧ (enroll_student_in_class 5
        ⟨true, true, ⟨1, 0, 1, [], []⟩, some 0, 0, false⟩).2.userWaitlistCount = some 1 := by
  decide

/-- C2 (amended): for an existing student and class with the student not yet
an occupant, the route appends the student to the occupant list (position
`n + 1` when the list has `n` entries), the result is Enrolled iff
`n + 1 < max_enroll` (strict: the enrollment that exactly fills the class is
routed to the waitlist branch), and an Enrolled result leaves the student's
stored waitlist count unchanged. -/
theorem enroll_append_and_result (student_id : Nat) (s : EnrollState)
    (hse : s.studentExists = true) (hce : s.classExists = true)
    (hnm : student_id ∉ s.classItem.enrolled) :
    (enroll_student_in_class student_id s).2.classItem.enrolled
        = s.classItem.enrolled ++ [student_id]
    ∧ ((enroll_student_in_class student_id s).1 = .enrolledOk
        ↔ s.classItem.current_enroll + 1 < s.classItem.max_enroll)
    ∧ ((enroll_student_in_class student_id s).1 = .enrolledOk
        → (enroll_student_in_class student_id s).2.userWaitlistCount
            = s.userWaitlistCount) := by
  simp only [enroll_student_in_class, hse, hce]
  simp only [Bool.true_eq_false, or_self, if_false, if_neg hnm]
  split
  · split
    · split
      · refine ⟨by split <;> rfl, ?_, ?_⟩
        · constructor
          · intro h; exact absurd h (by simp)
          · intro h; omega
        · intro h; exact absurd h (by simp)
      · refine ⟨by split <;> rfl, ?_, ?_⟩
        · constructor
          · intro h; exact absurd h (by simp)
          · intro h; omega
        · intro h; exact absurd h (by simp)
    · refine ⟨by split <;> rfl, ?_, ?_⟩
      · constructor
        · intro h; exact absurd h (by simp)
        · intro h; omega
      · intro h; exact absurd h (by simp)
  · refine ⟨by split <;> rfl, by simp; omega, ?_⟩
    intro _
    split <;> rfl

/-- C2 witness: a class with `max_enroll = 2` and no occupants enrolls
student 5 at position 1. -/
theorem enroll_append_and_result_witness :
    (enroll_student_in_class 5
        ⟨true, true, ⟨1, 0, 2, [], []⟩, some 0, 0, false⟩).2.classItem.enrolled
        = [] ++ [5]
    ∧ ((enroll_student_in_class 5
        ⟨true, true, ⟨1, 0, 2, [], []⟩, some 0, 0, false⟩).1 = .enrolledOk
        ↔ 0 + 1 < 2)
    ∧ ((enroll_student_in_class 5
        ⟨true, true, ⟨1, 0, 2, [], []⟩, some 0, 0, false⟩).1 = .enrolledOk
        → (enroll_student_in_class 5
            ⟨true, true, ⟨1, 0, 2, [], []⟩, some 0, 0, false⟩).2.userWaitlistCount
            = some 0) :=
  enroll_append_and_result 5 ⟨true, true, ⟨1, 0, 2, [], []⟩, some 0, 0, false⟩
    rfl rfl (by decide)

/-- C3 counterexample: new position exactly `max_enroll + 15` (here 16 with
`max_enroll = 1`), freeze clear, quota 0: the claim says the student is
waitlisted (16 is not `> max_enroll + 15`), but the route rejects because its
test is `new_enrollment < max_enroll + 15`. -/
theorem waitlist_bound_counterexample :
    (enroll_student_in_class 5
        ⟨true, true, ⟨1, 15, 1, [], []⟩, some 0, 0, false⟩).1 = .maxWaitlistRejected
    ∧ (enroll_student_in_class 5
        ⟨true, true, ⟨1, 15, 1, [], []⟩, some 0, 0, false⟩).1 ≠ .addedToWaitlist
    ∧ (0 : Nat) < MAX_WAITLIST
    ∧ ¬ (15 + 1 > 1 + 15) := by
  decide

/-- C3 (amended): for an enroll whose new position exceeds `max_enroll`, with
freeze clear: the result is Rejected("max waitlists reached") iff the Redis
waitlist count is already at `MAX_WAITLIST` or the new position is
`≥ max_enroll + 15`; otherwise the student is waitlisted and the student's
stored `waitlist_count` is incremented by exactly 1. -/
theorem enroll_waitlist_gate (student_id : Nat) (s : EnrollState)
    (hse : s.studentExists = true) (hce : s.classExists = true)
    (hnm : student_id ∉ s.classItem.enrolled)
    (hfull : s.classItem.max_enroll < s.classItem.current_enroll + 1)
    (hfr : s.freeze = false) :
    ((enroll_student_in_class student_id s).1 = .maxWaitlistRejected
        ↔ (MAX_WAITLIST ≤ s.redisWaitlistCount
            ∨ s.classItem.max_enroll + 15 ≤ s.classItem.current_enroll + 1))
    ∧ ((enroll_student_in_class student_id s).1 = .addedToWaitlist
        ↔ (s.redisWaitlistCount < MAX_WAITLIST
            ∧ s.classItem.current_enroll + 1 < s.classItem.max_enroll + 15))
    ∧ ((enroll_student_in_class student_id s).1 = .addedToWaitlist
        → (enroll_student_in_class student_id s).2.userWaitlistCount
            = some (s.userWaitlistCount.getD 0 + 1)) := by
  simp only [enroll_student_in_class, hse, hce, hfr]
  simp only [Bool.true_eq_false, or_self, if_false, if_neg hnm, if_pos (by omega :
      s.classItem.max_enroll ≤ s.classItem.current_enroll + 1), if_true]
  by_cases h : s.redisWaitlistCount < MAX_WAITLIST ∧
      s.classItem.current_enroll + 1 < s.classItem.max_enroll + 15
  · rw [if_pos h]
    simp only [MAX_WAITLIST] at h
    refine ⟨?_, ?_, fun _ => by split <;> rfl⟩
    · simp only [MAX_WAITLIST]
      simp
      omega
    · simp only [MAX_WAITLIST]
      simp
      omega
  · rw [if_neg h]
    simp only [MAX_WAITLIST] at h
    refine ⟨?_, ?_, fun h' => absurd h' (by simp)⟩
    · simp only [MAX_WAITLIST]
      simp
      omega
    · simp only [MAX_WAITLIST]
      simp
      omega

/-- C3 witness: a full class (`max_enroll = 1`, one occupant) waitlists
student 5 and bumps their stored count from 0 to 1. -/
theorem enroll_waitlist_gate_witness :
    (((enroll_student_in_class 5
        ⟨true, true, ⟨1, 1, 1, [], []⟩, some 0, 0, false⟩).1 = .maxWaitlistRejected)
        ↔ (MAX_WAITLIST ≤ 0 ∨ 1 + 15 ≤ 1 + 1))
    ∧ (((enroll_student_in_class 5
        ⟨true, true, ⟨1, 1, 1, [], []⟩, some 0, 0, false⟩).1 = .addedToWaitlist)
        ↔ (0 < MAX_WAITLIST ∧ 1 + 1 < 1 + 15))
    ∧ ((enroll_student_in_class 5
        ⟨true, true, ⟨1, 1, 1, [], []⟩, some 0, 0, false⟩).1 = .addedToWaitlist
        → (enroll_student_in_class 5
            ⟨true, true, ⟨1, 1, 1, [], []⟩, some 0, 0, false⟩).2.userWaitlistCount
            = some ((some 0).getD 0 + 1)) :=
  enroll_waitlist_gate 5 ⟨true, true, ⟨1, 1, 1, [], []⟩, some 0, 0, false⟩
    rfl rfl (by decide) (by decide) rfl

/-- C7 counterexample: a class with `max_enroll = 10` and `current_enroll =
40` is visible to a student with quota 0, although `40 ≥ 10 + 15`: the
query hard-codes `current_enroll < 45` instead of `max_enroll + 15`. -/
theorem available_classes_bound_counterexample :
    (⟨4, 40, 10, [], []⟩ : ClassItem)
        ∈ get_available_classes 0 [⟨4, 40, 10, [], []⟩]
    ∧ ¬ ((40 : Nat) < 10 + 15) := by
  decide

/-- C7 (amended): for a student with quota `≥ MAX_WAITLIST` the listing shows
exactly the classes with `current_enroll ≤ max_enroll`; for a student with
quota `< MAX_WAITLIST` it shows exactly the classes with
`current_enroll < 45` (hard-coded constant, equal to `max_enroll + 15` only
when `max_enroll = 30`). -/
theorem get_available_classes_spec (waitlist_count : Nat)
    (classes : List ClassItem) (c : ClassItem) :
    (MAX_WAITLIST ≤ waitlist_count
      → (c ∈ get_available_classes waitlist_count classes
          ↔ c ∈ classes ∧ c.current_enroll ≤ c.max_enroll))
    ∧ (waitlist_count < MAX_WAITLIST
      → (c ∈ get_available_classes waitlist_count classes
          ↔ c ∈ classes ∧ c.current_enroll < 45)) := by
  constructor
  · intro h
    simp [get_available_classes, if_pos h, List.mem_filter]
  · intro h
    simp [get_available_classes, if_neg (by omega : ¬ MAX_WAITLIST ≤ waitlist_count),
      List.mem_filter]

/-- C7 witness: a maxed-out student (quota 3) sees a class with
`current_enroll = 30 ≤ max_enroll = 30`. -/
theorem get_available_classes_spec_witness :
    (⟨6, 30, 30, [], []⟩ : ClassItem)
        ∈ get_available_classes 3 [⟨6, 30, 30, [], []⟩]
    ↔ (⟨6, 30, 30, [], []⟩ : ClassItem) ∈ [(⟨6, 30, 30, [], []⟩ : ClassItem)]
        ∧ (30 : Nat) ≤ 30 :=
  (get_available_classes_spec 3 [⟨6, 30, 30, [], []⟩] ⟨6, 30, 30, [], []⟩).1
    (by decide)

/-- C9 counterexample: dropping the same enrolled student twice gives
success then the HTTP 400 "Student is not enrolled in the class" rejection,
not the HTTP 404 NotFound that the claim predicts. -/
theorem drop_twice_counterexample :
    (drop_student_from_class 5
        (drop_student_from_class 5 ⟨true, true, ⟨1, 1, 1, [5], []⟩, false⟩).2).1
        = .notEnrolled
    ∧ (drop_student_from_class 5
        (drop_student_from_class 5 ⟨true, true, ⟨1, 1, 1, [5], []⟩, false⟩).2).1
        ≠ .notFound := by
  decide

/-- C9 (amended): for an existing (class, student) pair where the student is
an enrolled occupant exactly once and not on the class's Redis waitlist,
calling drop twice yields Dropped on the first call and the 400 "Student is
not enrolled in the class" rejection (not a 404 NotFound) on the second. -/
theorem drop_twice_amended (student_id : Nat) (s : DropState)
    (hse : s.studentExists = true) (hce : s.classExists = true)
    (hcount : s.classItem.enrolled.count student_id = 1)
    (hwl : s.onRedisWaitlist = false) :
    (drop_student_from_class student_id s).1 = .droppedOk
    ∧ (drop_student_from_class student_id
        (drop_student_from_class student_id s).2).1 = .notEnrolled := by
  have hmem : student_id ∈ s.classItem.enrolled := by
    have : 0 < s.classItem.enrolled.count student_id := by omega
    exact List.count_pos_iff.mp this
  have hnmem : student_id ∉ s.classItem.enrolled.erase student_id := by
    rw [← List.count_eq_zero, List.count_erase_self, hcount]
  simp [drop_student_from_class, hse, hce, hwl, hmem, hnmem]

/-- C9 witness: drop student 5 twice from a one-student class. -/
theorem drop_twice_amended_witness :
    (drop_student_from_class 5 ⟨true, true, ⟨2, 1, 1, [5], []⟩, false⟩).1
        = .droppedOk
    ∧ (drop_student_from_class 5
        (drop_student_from_class 5 ⟨true, true, ⟨2, 1, 1, [5], []⟩, false⟩).2).1
        = .notEnrolled :=
  drop_twice_amended 5 ⟨true, true, ⟨2, 1, 1, [5], []⟩, false⟩
    rfl rfl (by decide) rfl

/-- C10: a successful self-service drop in the DynamoDB variant only removes
the student from `enrolled` and appends them to `dropped`; `id`,
`current_enroll` and `max_enroll` are untouched — while the corresponding
enroll increments `current_enroll` by 1. -/
theorem drop_frame_and_enroll_increment (sid sid2 : Nat)
    (s : DropState) (t : EnrollState)
    (hse : s.studentExists = true) (hce : s.classExists = true)
    (hmem : sid ∈ s.classItem.enrolled) (hwl : s.onRedisWaitlist = false)
    (hte : t.studentExists = true) (htc : t.classExists = true)
    (hnm : sid2 ∉ t.classItem.enrolled) :
    (drop_student_from_class sid s).1 = .droppedOk
    ∧ (drop_student_from_class sid s).2.classItem.id = s.classItem.id
    ∧ (drop_student_from_class sid s).2.classItem.current_enroll
        = s.classItem.current_enroll
    ∧ (drop_student_from_class sid s).2.classItem.max_enroll
        = s.classItem.max_enroll
    ∧ (drop_student_from_class sid s).2.classItem.enrolled
        = s.classItem.enrolled.erase sid
    ∧ (drop_student_from_class sid s).2.classItem.dropped
        = s.classItem.dropped ++ [sid]
    ∧ (enroll_student_in_class sid2 t).2.classItem.current_enroll
        = t.classItem.current_enroll + 1 := by
  have h7 : (enroll_student_in_class sid2 t).2.classItem.current_enroll
      = t.classItem.current_enroll + 1 := by
    simp only [enroll_student_in_class, hte, htc]
    simp only [Bool.true_eq_false, or_self, if_false, if_neg hnm]
    split_ifs <;> rfl
  refine ⟨?_, ?_, ?_, ?_, ?_, ?_, h7⟩ <;>
    simp [drop_student_from_class, hse, hce, hwl, hmem]

/-- C10 witness: drop student 5 from `[5, 6]` and enroll student 9 in an
empty class. -/
theorem drop_frame_and_enroll_increment_witness :
    (drop_student_from_class 5 ⟨true, true, ⟨3, 2, 1, [5, 6], [4]⟩, false⟩).1
        = .droppedOk
    ∧ (drop_student_from_class 5
        ⟨true, true, ⟨3, 2, 1, [5, 6], [4]⟩, false⟩).2.classItem.id = 3
    ∧ (drop_student_from_class 5
        ⟨true, true, ⟨3, 2, 1, [5, 6], [4]⟩, false⟩).2.classItem.current_enroll = 2
    ∧ (drop_student_from_class 5
        ⟨true, true, ⟨3, 2, 1, [5, 6], [4]⟩, false⟩).2.classItem.max_enroll = 1
    ∧ (drop_student_from_class 5
        ⟨true, true, ⟨3, 2, 1, [5, 6], [4]⟩, false⟩).2.classItem.enrolled
        = [5, 6].erase 5
    ∧ (drop_student_from_class 5
        ⟨true, true, ⟨3, 2, 1, [5, 6], [4]⟩, false⟩).2.classItem.dropped
        = [4] ++ [5]
    ∧ (enroll_student_in_class 9
        ⟨true, true, ⟨1, 0, 2, [], []⟩, none, 0, false⟩).2.classItem.current_enroll
        = 0 + 1 :=
  drop_frame_and_enroll_increment 5 9
    ⟨true, true, ⟨3, 2, 1, [5, 6], [4]⟩, false⟩
    ⟨true, true, ⟨1, 0, 2, [], []⟩, none, 0, false⟩
    rfl rfl (by decide) rfl rfl rfl (by decide)

/-- C4: the Redis quota counter does not stay equal to the number of held
waitlist positions.  Starting from a state built by the code's own
`add_waitlists` (students 1 and 2 on class 7's waitlist), removing student 1
leaves student 1's counter at 1 instead of decrementing it to 0, even though
student 1 no longer holds any waitlist position: the renumbering loop
`hset`s the shifted placements into the removed student's hash (keyed by the
other students' ids) instead of into the other students' hashes. -/
theorem remove_waitlist_quota_bug :
    Waitlist.get_waitlist_count sampleWaitlistDB 1 = 1
    ∧ Waitlist.get_waitlist_count
        (Waitlist.remove_student_from_waitlists 1 7 sampleWaitlistDB) 1 = 1
    ∧ zscore (getKey
        (Waitlist.remove_student_from_waitlists 1 7 sampleWaitlistDB).classWaitlists
        7) 1 = none := by
  decide

/-- C5: the SQL decrement `UPDATE waitlist SET waitlist_count =
waitlist_count - 1` in `remove_from_waitlist` has no floor: a student whose
counter is already 0 but who still holds a waitlist placement (class 7,
`max_enroll = 2`, placement 3) ends with counter −1. -/
theorem waitlist_count_goes_negative :
    (remove_from_waitlist 1 7 ⟨true, [⟨7, 3, 2⟩], [⟨1, 7, 3⟩], [(1, 0)]⟩).1
        = .removed
    ∧ (remove_from_waitlist 1 7
        ⟨true, [⟨7, 3, 2⟩], [⟨1, 7, 3⟩], [(1, 0)]⟩).2.waitlist_counts
        = [(1, -1)] := by
  decide

/-- Folding `placement_step` over the counters `a, a+1, ..., a+k-1` in
ascending order decrements a placement exactly once, when it lies in the
counter range and above the removal point. -/
theorem foldl_placement_step (p : Nat) :
    ∀ (k a q : Nat),
      (List.range' a k).foldl (fun x counter => placement_step p counter x) q
        = if p < q ∧ a ≤ q ∧ q < a + k then q - 1 else q := by
  intro k
  induction k with
  | zero =>
    intro a q
    simp only [List.range', List.foldl_nil]
    split
    · omega
    · rfl
  | succ k ih =>
    intro a q
    rw [List.range'_succ, List.foldl_cons]
    rw [ih]
    simp only [placement_step]
    split_ifs <;> omega

/-- On a row of the affected class, folding `reorder_row_step` is folding
`placement_step` on its placement. -/
theorem foldl_reorder_row_step_same (c p : Nat) (cs : List Nat) :
    ∀ (st pl : Nat),
      cs.foldl (fun r counter => reorder_row_step c p counter r) ⟨st, c, pl⟩
        = ⟨st, c, cs.foldl (fun q counter => placement_step p counter q) pl⟩ := by
  induction cs with
  | nil => intro st pl; rfl
  | cons a l ih =>
    intro st pl
    rw [List.foldl_cons, List.foldl_cons]
    have hstep : reorder_row_step c p a ⟨st, c, pl⟩ = ⟨st, c, placement_step p a pl⟩ := by
      simp only [reorder_row_step, placement_step]
      by_cases h1 : p < a
      · by_cases h2 : pl = a
        · simp [h1, h2]
        · simp [h1, h2]
      · simp [h1, (by omega : ¬(p < a ∧ pl = a))]
    rw [hstep, ih]

/-- Folding `reorder_row_step` never changes a row's student or class. -/
theorem foldl_reorder_row_step_ids (c p : Nat) (cs : List Nat) :
    ∀ row : EnrollRow,
      (cs.foldl (fun r counter => reorder_row_step c p counter r) row).student_id
          = row.student_id
      ∧ (cs.foldl (fun r counter => reorder_row_step c p counter r) row).class_id
          = row.class_id := by
  induction cs with
  | nil => intro row; exact ⟨rfl, rfl⟩
  | cons a l ih =>
    intro row
    rw [List.foldl_cons]
    have h := ih (reorder_row_step c p a row)
    have hids : (reorder_row_step c p a row).student_id = row.student_id
        ∧ (reorder_row_step c p a row).class_id = row.class_id := by
      simp only [reorder_row_step]
      split_ifs <;> simp
    exact ⟨h.1.trans hids.1, h.2.trans hids.2⟩

/-- `reorder_loop` is the per-row fold of `reorder_row_step`: the SQL UPDATEs
of one loop pass act independently on each enrollment row. -/
theorem reorder_loop_eq_map (c p : Nat) (cs : List Nat) :
    ∀ rows : List EnrollRow,
      reorder_loop c p rows cs
        = rows.map (fun row =>
            cs.foldl (fun r counter => reorder_row_step c p counter r) row) := by
  induction cs with
  | nil => intro rows; simp [reorder_loop]
  | cons a l ih =>
    intro rows
    have h0 : reorder_loop c p rows (a :: l)
        = reorder_loop c p
            (if p < a then
              rows.map (fun row =>
                if row.class_id = c ∧ row.placement = a then
                  { row with placement := row.placement - 1 }
                else row)
            else rows) l := rfl
    rw [h0]
    by_cases h : p < a
    · rw [if_pos h, ih, List.map_map]
      apply List.map_congr_left
      intro r _
      simp only [Function.comp, List.foldl_cons, reorder_row_step, if_pos h]
    · rw [if_neg h, ih]
      apply List.map_congr_left
      intro r _
      rw [List.foldl_cons]
      have : reorder_row_step c p a r = r := by
        simp [reorder_row_step, h]
      rw [this]

/-- Net effect of `reorder_placement`'s loop on one row of the affected class
whose placement lies in `1..n`: placements above the removal point go down by
exactly 1, the others are untouched. -/
theorem reorder_row_effect (c p n : Nat) (row : EnrollRow)
    (hc : row.class_id = c) (h1 : 1 ≤ row.placement) (h2 : row.placement ≤ n) :
    (List.range' 1 n).foldl (fun r counter => reorder_row_step c p counter r) row
      = if p < row.placement then { row with placement := row.placement - 1 }
        else row := by
  rcases row with ⟨st, cid, pl⟩
  obtain rfl : cid = c := hc
  have h1' : 1 ≤ pl := h1
  have h2' : pl ≤ n := h2
  rw [foldl_reorder_row_step_same, foldl_placement_step]
  show (⟨st, cid, if p < pl ∧ 1 ≤ pl ∧ pl < 1 + n then pl - 1 else pl⟩ : EnrollRow)
      = if p < pl then (⟨st, cid, pl - 1⟩ : EnrollRow) else ⟨st, cid, pl⟩
  by_cases h : p < pl
  · rw [if_pos (show p < pl ∧ 1 ≤ pl ∧ pl < 1 + n by omega), if_pos h]
  · rw [if_neg (show ¬(p < pl ∧ 1 ≤ pl ∧ pl < 1 + n) by omega), if_neg h]

/-- Subtracting one from each element of `range' (s+1) k` gives `range' s k`. -/
theorem map_pred_range' (k : Nat) :
    ∀ s : Nat, (List.range' (s + 1) k).map (fun q => q - 1) = List.range' s k := by
  induction k with
  | zero => intro s; rfl
  | succ k ih =>
    intro s
    rw [List.range'_succ, List.range'_succ, List.map_cons, ih (s + 1)]
    simp

/-- Dropping `p` from `1..n` and shifting everything above `p` down by one
gives exactly `1..n-1`. -/
theorem map_shift_filter_range (p n : Nat) (hp : 1 ≤ p) (hpn : p ≤ n) :
    ((List.range' 1 n).filter (fun q => q != p)).map
        (fun q => if p < q then q - 1 else q)
      = List.range' 1 (n - 1) := by
  obtain ⟨m, rfl⟩ : ∃ m, p = m + 1 := ⟨p - 1, by omega⟩
  obtain ⟨r, rfl⟩ : ∃ r, n = m + 1 + r := ⟨n - (m + 1), by omega⟩
  have hsplit : List.range' 1 (m + 1 + r) = List.range' 1 m ++ List.range' (1 + m) (1 + r) := by
    have h := List.range'_append 1 m (1 + r) 1
    simp only [Nat.one_mul] at h
    rw [show m + 1 + r = 1 + r + m by omega]
    exact h.symm
  rw [hsplit, List.filter_append, List.map_append]
  have hleft1 : (List.range' 1 m).filter (fun q => q != m + 1) = List.range' 1 m := by
    rw [List.filter_eq_self]
    intro q hq
    rw [List.mem_range'_1] at hq
    simp
    omega
  have hleft2 : (List.range' 1 m).map (fun q => if m + 1 < q then q - 1 else q)
      = List.range' 1 m := by
    have : (List.range' 1 m).map (fun q => if m + 1 < q then q - 1 else q)
        = (List.range' 1 m).map id := by
      apply List.map_congr_left
      intro q hq
      rw [List.mem_range'_1] at hq
      simp only [id]
      rw [if_neg (by omega)]
    rw [this, List.map_id]
  have hright : List.range' (1 + m) (1 + r) = (m + 1) :: List.range' (m + 2) r := by
    rw [show (1 + m : Nat) = m + 1 by omega, show (1 + r : Nat) = r + 1 by omega,
      List.range'_succ, show (m + 1 + 1 : Nat) = m + 2 by omega]
  rw [hright]
  have hhead : ((m + 1 : Nat) != m + 1) = false := by simp
  rw [List.filter_cons, hhead]
  simp only [Bool.false_eq_true, if_false]
  have hright1 : (List.range' (m + 2) r).filter (fun q => q != m + 1)
      = List.range' (m + 2) r := by
    rw [List.filter_eq_self]
    intro q hq
    rw [List.mem_range'_1] at hq
    simp
    omega
  have hright2 : (List.range' (m + 2) r).map (fun q => if m + 1 < q then q - 1 else q)
      = List.range' (m + 1) r := by
    have : (List.range' (m + 2) r).map (fun q => if m + 1 < q then q - 1 else q)
        = (List.range' (m + 2) r).map (fun q => q - 1) := by
      apply List.map_congr_left
      intro q hq
      rw [List.mem_range'_1] at hq
      rw [if_pos (by omega)]
    rw [this]
    exact map_pred_range' r (m + 1)
  rw [hleft1, hleft2, hright1, hright2]
  have h := List.range'_append 1 m r 1
  simp only [Nat.one_mul] at h
  rw [show (1 + m : Nat) = m + 1 by omega] at h
  rw [h]
  congr 1
  omega

/-- `find?` for a student's row in the waitlist-counts table after the SQL
decrement: the found count goes down by one. -/
theorem find_decrement (k : Nat) :
    ∀ l : List (Nat × Int),
      (l.map (fun kv => if kv.1 = k then (kv.1, kv.2 - 1) else kv)).find?
          (fun kv => kv.1 == k)
        = (l.find? (fun kv => kv.1 == k)).map (fun kv => (kv.1, kv.2 - 1)) := by
  intro l
  induction l with
  | nil => rfl
  | cons hd tl ih =>
    by_cases h : hd.1 = k
    · rw [List.map_cons, if_pos h,
        List.find?_cons_of_pos _ (by simp [h]),
        List.find?_cons_of_pos _ (by simp [h])]
      rfl
    · rw [List.map_cons, if_neg h,
        List.find?_cons_of_neg _ (by simp [h]),
        List.find?_cons_of_neg _ (by simp [h]), ih]

/-- C6: for a class whose remaining occupant rows carry exactly the
placements `1..n` minus the removed position `p` (`1 ≤ p ≤ n`), the
renumbering of `reorder_placement` decrements by exactly 1 every placement
that exceeded `p`, leaves placements `≤ p` unchanged, and the resulting
placements are exactly `1..n-1`, with no gaps and no duplicates. -/
theorem reorder_placement_renumbers (n p class_id : Nat) (s : SQLState)
    (hp : 1 ≤ p) (hpn : p ≤ n)
    (hcls : ∀ row ∈ s.enrollment, row.class_id = class_id)
    (hperm : (s.enrollment.map EnrollRow.placement).Perm
        ((List.range' 1 n).filter (fun q => q != p))) :
    (reorder_placement (n : Int) p class_id s).enrollment
        = s.enrollment.map (fun row =>
            if p < row.placement then { row with placement := row.placement - 1 }
            else row)
    ∧ ((reorder_placement (n : Int) p class_id s).enrollment.map
        EnrollRow.placement).Perm (List.range' 1 (n - 1)) := by
  have hbounds : ∀ row ∈ s.enrollment, 1 ≤ row.placement ∧ row.placement ≤ n := by
    intro row hr
    have hmm : row.placement ∈ (List.range' 1 n).filter (fun q => q != p) :=
      hperm.mem_iff.mp (List.mem_map_of_mem EnrollRow.placement hr)
    have hb := (List.mem_filter.mp hmm).1
    rw [List.mem_range'_1] at hb
    omega
  have hmain : (reorder_placement (n : Int) p class_id s).enrollment
      = s.enrollment.map (fun row =>
          if p < row.placement then { row with placement := row.placement - 1 }
          else row) := by
    show reorder_loop class_id p s.enrollment (List.range' 1 ((n : Int)).toNat) = _
    rw [Int.toNat_ofNat, reorder_loop_eq_map]
    apply List.map_congr_left
    intro row hr
    exact reorder_row_effect class_id p n row (hcls row hr)
      (hbounds row hr).1 (hbounds row hr).2
  refine ⟨hmain, ?_⟩
  rw [hmain]
  have h1 : (s.enrollment.map (fun row =>
      if p < row.placement then { row with placement := row.placement - 1 }
      else row)).map EnrollRow.placement
      = (s.enrollment.map EnrollRow.placement).map
          (fun q => if p < q then q - 1 else q) := by
    rw [List.map_map, List.map_map]
    apply List.map_congr_left
    intro r _
    by_cases h : p < r.placement <;> simp [Function.comp, h]
  rw [h1, ← map_shift_filter_range p n hp hpn]
  exact hperm.map (fun q => if p < q then q - 1 else q)

/-- C6 witness: class 7 held occupants at placements 1 and 2; after removing
placement 1, the remaining row (student 2, placement 2) is renumbered to
placement 1, giving exactly the placements `1..1`. -/
theorem reorder_placement_renumbers_witness :
    (reorder_placement ((2 : Nat) : Int) 1 7
        ⟨true, [⟨7, 2, 1⟩], [⟨2, 7, 2⟩], []⟩).enrollment
        = [⟨2, 7, 2⟩].map (fun row =>
            if 1 < row.placement then { row with placement := row.placement - 1 }
            else row)
    ∧ ((reorder_placement ((2 : Nat) : Int) 1 7
        ⟨true, [⟨7, 2, 1⟩], [⟨2, 7, 2⟩], []⟩).enrollment.map
        EnrollRow.placement).Perm (List.range' 1 (2 - 1)) :=
  reorder_placement_renumbers 2 1 7 ⟨true, [⟨7, 2, 1⟩], [⟨2, 7, 2⟩], []⟩
    (by decide) (by decide) (by decide) (by decide)

/-- C8 counterexample: a student who is a waitlisted occupant (position 3
with `max_enroll = 2`, on the class's Redis waitlist) is rejected by the
self-service drop route with the 400 "Student is not enrolled in the class"
error, and nothing is removed or decremented: the drop does not succeed. -/
theorem drop_waitlisted_rejected :
    (drop_student_from_class 5
        ⟨true, true, ⟨1, 3, 2, [1, 2, 5], []⟩, true⟩).1 = .notEnrolled
    ∧ (drop_student_from_class 5
        ⟨true, true, ⟨1, 3, 2, [1, 2, 5], []⟩, true⟩).1 ≠ .droppedOk
    ∧ (drop_student_from_class 5
        ⟨true, true, ⟨1, 3, 2, [1, 2, 5], []⟩, true⟩).2
        = ⟨true, true, ⟨1, 3, 2, [1, 2, 5], []⟩, true⟩ := by
  decide

/-- C8 (amended): the waitlist-removal route is the drop path that succeeds
for a waitlisted occupant: for a student holding an enrollment row with
placement above the class's `max_enroll`, `remove_from_waitlist` succeeds,
removes all of that student's occupant rows for the class, and decrements
that student's waitlist counter by exactly 1. -/
theorem remove_from_waitlist_drops (sid cid : Nat) (s : SQLState)
    (cl : ClassRow) (entry : EnrollRow) (w : Int)
    (hse : s.studentExists = true)
    (hcl : s.classes.find? (fun c => c.id == cid) = some cl)
    (hentry : s.enrollment.find? (fun row =>
        row.student_id == sid && row.class_id == cid &&
          decide (cl.max_enroll < row.placement)) = some entry)
    (hw : s.waitlist_counts.find? (fun kv => kv.1 == sid) = some (sid, w)) :
    (remove_from_waitlist sid cid s).1 = .removed
    ∧ (∀ row ∈ (remove_from_waitlist sid cid s).2.enrollment,
        ¬(row.student_id = sid ∧ row.class_id = cid))
    ∧ (remove_from_waitlist sid cid s).2.waitlist_counts.find?
        (fun kv => kv.1 == sid) = some (sid, w - 1) := by
  have hred : remove_from_waitlist sid cid s
      = (.removed, reorder_placement cl.current_enroll entry.placement cid
          { s with
              enrollment := s.enrollment.filter (fun row =>
                !(row.student_id == sid && row.class_id == cid)),
              waitlist_counts := s.waitlist_counts.map (fun kv =>
                if kv.1 = sid then (kv.1, kv.2 - 1) else kv) }) := by
    rw [remove_from_waitlist, hse]
    simp only [Bool.true_eq_false, if_false, hcl, hentry]
  rw [hred]
  refine ⟨rfl, ?_, ?_⟩
  · intro row hrow
    have hloop : (reorder_placement cl.current_enroll entry.placement cid
        { s with
            enrollment := s.enrollment.filter (fun row =>
              !(row.student_id == sid && row.class_id == cid)),
            waitlist_counts := s.waitlist_counts.map (fun kv =>
              if kv.1 = sid then (kv.1, kv.2 - 1) else kv) }).enrollment
        = (s.enrollment.filter (fun row =>
            !(row.student_id == sid && row.class_id == cid))).map
            (fun row => (List.range' 1 cl.current_enroll.toNat).foldl
              (fun r counter => reorder_row_step cid entry.placement counter r) row) := by
      exact reorder_loop_eq_map cid entry.placement _ _
    rw [hloop, List.mem_map] at hrow
    obtain ⟨r, hrmem, rfl⟩ := hrow
    have hids := foldl_reorder_row_step_ids cid entry.placement
      (List.range' 1 cl.current_enroll.toNat) r
    rw [hids.1, hids.2]
    have hpred := (List.mem_filter.mp hrmem).2
    intro hcontra
    rw [hcontra.1, hcontra.2] at hpred
    simp at hpred
  · show (s.waitlist_counts.map (fun kv =>
        if kv.1 = sid then (kv.1, kv.2 - 1) else kv)).find?
        (fun kv => kv.1 == sid) = some (sid, w - 1)
    rw [find_decrement sid s.waitlist_counts, hw]
    rfl

/-- C8 witness: student 1 is waitlisted in class 7 (placement 3,
`max_enroll = 2`, counter 2); the waitlist removal succeeds, removes the row
and leaves the counter at 1. -/
theorem remove_from_waitlist_drops_witness :
    (remove_from_waitlist 1 7 ⟨true, [⟨7, 3, 2⟩], [⟨1, 7, 3⟩], [(1, 2)]⟩).1
        = .removed
    ∧ (∀ row ∈ (remove_from_waitlist 1 7
        ⟨true, [⟨7, 3, 2⟩], [⟨1, 7, 3⟩], [(1, 2)]⟩).2.enrollment,
        ¬(row.student_id = 1 ∧ row.class_id = 7))
    ∧ (remove_from_waitlist 1 7
        ⟨true, [⟨7, 3, 2⟩], [⟨1, 7, 3⟩], [(1, 2)]⟩).2.waitlist_counts.find?
        (fun kv => kv.1 == 1) = some (1, 2 - 1) :=
  remove_from_waitlist_drops 1 7 ⟨true, [⟨7, 3, 2⟩], [⟨1, 7, 3⟩], [(1, 2)]⟩
    ⟨7, 3, 2⟩ ⟨1, 7, 3⟩ 2 rfl rfl rfl rfl

end Enrollment
